import Mathlib

/-!
Shallow embedding of the federation member-cluster connectivity and
topology-discovery logic (package `cluster`, file `cluster_client.go` style
source): endpoint selection, client construction, credential resolution,
health probing and zone/region discovery.

External effects (host interface lookup, HTTP transport, secret store,
node listing) are passed in as explicit values or function parameters; the
decision logic itself is translated line by line from the Go source.
Go `(value, error)` returns become `Except GoError value`; Go nilable
pointers become `Option`.
-/

/-- Go `error` values, identified by their message (`fmt.Errorf`). -/
abbrev GoError := String

deriving instance DecidableEq for Except

/- ### Condition and status data model (federation_v1alpha1, v1) -/

/-- Model of `federation_v1alpha1.ClusterConditionType`: the two condition types used
by the health probe, `ClusterReady` and `ClusterOffline`. -/
inductive ClusterConditionType where
  | clusterReady
  | clusterOffline
deriving DecidableEq, Repr

/-- Model of `v1.ConditionStatus` (`ConditionTrue` / `ConditionFalse` / `ConditionUnknown`). -/
inductive ConditionStatus where
  | conditionTrue
  | conditionFalse
  | conditionUnknown
deriving DecidableEq, Repr

/-- Model of `federation_v1alpha1.ClusterCondition`. Timestamps (`unversioned.Time`)
are modelled as an abstract tick (`Nat`). -/
structure ClusterCondition where
  type_ : ClusterConditionType
  status : ConditionStatus
  reason : String
  message : String
  lastProbeTime : Nat
  lastTransitionTime : Nat
deriving DecidableEq, Repr

/-- Model of `federation_v1alpha1.ClusterStatus`: an ordered sequence of conditions. -/
structure ClusterStatus where
  conditions : List ClusterCondition
deriving DecidableEq, Repr

/- ### The health prober (source lines 117-164) -/

/-- ASCII case folding of one character, as `strings.EqualFold` performs on
ASCII runes: map `A`-`Z` to the corresponding lowercase letter. -/
def foldChar (c : Char) : Char :=
  if 'A' ≤ c ∧ c ≤ 'Z' then Char.ofNat (c.toNat + 32) else c

/-- Model of `strings.EqualFold` restricted to ASCII folding: equality of the two
strings after per-character case folding. -/
def EqualFold (s t : String) : Bool :=
  s.data.map foldChar == t.data.map foldChar

/-- Source lines 121-128: the `ClusterReady`/`ConditionTrue` condition. -/
def newClusterReadyCondition (currentTime : Nat) : ClusterCondition :=
  { type_ := .clusterReady
    status := .conditionTrue
    reason := "ClusterReady"
    message := "/healthz responded with ok"
    lastProbeTime := currentTime
    lastTransitionTime := currentTime }

/-- Source lines 129-136: the `ClusterReady`/`ConditionFalse` condition. -/
def newClusterNotReadyCondition (currentTime : Nat) : ClusterCondition :=
  { type_ := .clusterReady
    status := .conditionFalse
    reason := "ClusterNotReady"
    message := "/healthz responded without ok"
    lastProbeTime := currentTime
    lastTransitionTime := currentTime }

/-- Source lines 137-144: the `ClusterOffline`/`ConditionTrue` condition. -/
def newNodeOfflineCondition (currentTime : Nat) : ClusterCondition :=
  { type_ := .clusterOffline
    status := .conditionTrue
    reason := "ClusterNotReachable"
    message := "cluster is not reachable"
    lastProbeTime := currentTime
    lastTransitionTime := currentTime }

/-- Source lines 145-152: the `ClusterOffline`/`ConditionFalse` condition. -/
def newNodeNotOfflineCondition (currentTime : Nat) : ClusterCondition :=
  { type_ := .clusterOffline
    status := .conditionFalse
    reason := "ClusterReachable"
    message := "cluster is reachable"
    lastProbeTime := currentTime
    lastTransitionTime := currentTime }

/-- Embedding of `GetClusterHealthStatus` (source lines 118-164). The single `/healthz`
round trip (line 153) is the function's input: `.error e` models a transport
error from `Raw()`, `.ok body` a successful response body. `currentTime` is
the `unversioned.Now()` snapshot of line 120. The Go function always returns
a status object and has no error return; correspondingly the result type is
plain `ClusterStatus`. -/
def GetClusterHealthStatus (currentTime : Nat)
    (healthzResult : Except GoError String) : ClusterStatus :=
  match healthzResult with
  | .error _ =>
      { conditions := [newNodeOfflineCondition currentTime] }
  | .ok body =>
      if ¬ (EqualFold body "ok") then
        { conditions := [newClusterNotReadyCondition currentTime,
                         newNodeNotOfflineCondition currentTime] }
      else
        { conditions := [newClusterReadyCondition currentTime] }

/-- The (type, status-is-true) summary of a status' conditions, used to state
which condition set a probe outcome produces. -/
def condSummary (s : ClusterStatus) : List (ClusterConditionType × Bool) :=
  s.conditions.map fun c => (c.type_, c.status == .conditionTrue)

/- ### Cluster spec, CIDR parsing and endpoint selection (source lines 78-95) -/

/-- One advertised (client CIDR, server address) pair of the cluster spec. -/
structure ServerAddressByClientCIDR where
  clientCIDR : String
  serverAddress : String
deriving DecidableEq, Repr

/-- The part of `federation_v1alpha1.ClusterSpec` the factory reads: the
ordered pair list and the credential secret reference name. -/
structure ClusterSpec where
  serverAddressByClientCIDRs : List ServerAddressByClientCIDR
  secretRefName : String
deriving DecidableEq, Repr

/-- An IPv4 network as produced by `net.ParseCIDR`: the masked network
address and the prefix length. Addresses are 32-bit values as `Nat`. -/
structure IPNet where
  network : Nat
  maskLen : Nat
deriving DecidableEq, Repr

/-- The 32-bit mask with `n` leading one bits. -/
def maskBits (n : Nat) : Nat := 2 ^ 32 - 2 ^ (32 - n)

/-- Split a character list at every occurrence of `sep` (the separator is
dropped), as Go's parsers split on `.` and `/`. -/
def splitChars (sep : Char) : List Char → List (List Char)
  | [] => [[]]
  | c :: cs =>
      match splitChars sep cs with
      | [] => if c == sep then [[], []] else [[c]]
      | h :: t => if c == sep then [] :: h :: t else (c :: h) :: t

/-- Go's `dtoi`: a nonempty run of decimal digits read as a decimal value. -/
def parseDecimal (cs : List Char) : Option Nat :=
  if cs.isEmpty then none
  else if cs.all Char.isDigit then
    some (cs.foldl (fun n c => n * 10 + (c.toNat - 48)) 0)
  else none

/-- One dotted-quad field: a decimal run whose value is at most 255. -/
def parseOctet (cs : List Char) : Option Nat :=
  match parseDecimal cs with
  | none => none
  | some n => if n ≤ 255 then some n else none

/-- Model of `net.ParseIP` restricted to IPv4 dotted-quad form, as a 32-bit value. -/
def parseIPv4 (s : String) : Option Nat :=
  match (splitChars '.' s.data).mapM parseOctet with
  | some [a, b, c, d] => some (((a * 256 + b) * 256 + c) * 256 + d)
  | _ => none

/-- Model of `net.ParseCIDR` restricted to IPv4: split at the slash, parse the
address part and the prefix length (0..32), and return the masked network.
A malformed string yields the Go parse error message. -/
def ParseCIDR (s : String) : Except GoError IPNet :=
  match splitChars '/' s.data with
  | [addr, mask] =>
      match parseIPv4 (String.mk addr), parseDecimal mask with
      | some ip, some n =>
          if n ≤ 32 then .ok { network := ip &&& maskBits n, maskLen := n }
          else .error ("invalid CIDR address: " ++ s)
      | _, _ => .error ("invalid CIDR address: " ++ s)
  | _ => .error ("invalid CIDR address: " ++ s)

/-- Model of `IPNet.Contains`: the candidate address masked with the network's mask
equals the network address. -/
def IPNet.Contains (cidrnet : IPNet) (ip : Nat) : Bool :=
  ip &&& maskBits cidrnet.maskLen == cidrnet.network

/-- The endpoint-selection loop of `NewClusterClientSet` (source lines
85-95): iterate the pairs in order; a CIDR that fails to parse aborts with
its parse error; the first CIDR whose network contains `hostIP` selects that
pair's server address and leaves the loop; if no pair matches,
`serverAddress` keeps its zero value `""`. (The source's round trip
`net.ParseIP(hostIP.String())` is the identity on the IPv4 host address.) -/
def selectServerAddress (hostIP : Nat) :
    List ServerAddressByClientCIDR → Except GoError String
  | [] => .ok ""
  | item :: rest =>
      match ParseCIDR item.clientCIDR with
      | .error e => .error e
      | .ok cidrnet =>
          if cidrnet.Contains hostIP then .ok item.serverAddress
          else selectServerAddress hostIP rest

/- ### The client factory (source lines 40-45, 73-115) -/

def UserAgentName : String := "Cluster-Controller"

/-- Constant `KubeAPIQPS` is the float literal 20.0 in the source; the claims never
inspect its fractional part, so it is modelled as the natural 20. -/
def KubeAPIQPS : Nat := 20

def KubeAPIBurst : Nat := 30

def KubeconfigSecretDataKey : String := "kubeconfig"

/-- Minimal model of `restclient.Config`: exactly the fields the factory
writes (host from the endpoint, user agent, QPS, burst). -/
structure RestConfig where
  host : String
  userAgent : String
  qps : Nat
  burst : Nat
deriving DecidableEq, Repr

/-- A built discovery handle, carrying the config it was built from. -/
structure DiscoveryClient where
  config : RestConfig
deriving DecidableEq, Repr

/-- A built data-plane handle, carrying the config it was built from. -/
structure KubeClientSet where
  config : RestConfig
deriving DecidableEq, Repr

/-- Model of `ClusterClient` (source lines 73-76): two nilable handles. The Go zero
value of the struct is the record with both handles `none`. -/
structure ClusterClient where
  discoveryClient : Option DiscoveryClient
  kubeClient : Option KubeClientSet
deriving DecidableEq, Repr

/-- Model of `restclient.AddUserAgent`: tag the config with the user agent. -/
def AddUserAgent (config : RestConfig) (userAgent : String) : RestConfig :=
  { config with userAgent := userAgent }

/-- Embedding of `NewClusterClientSet` (source lines 78-115), with its external
collaborators passed in: `chooseHostInterface` is the outcome of
`utilnet.ChooseHostInterface` (line 80); `buildConfigFromKubeconfigGetter`
models `clientcmd.BuildConfigFromKubeconfigGetter` applied to the selected
server address with the cluster's kubeconfig getter baked in (line 99) — it
fails exactly when the credential resolver or config parsing fails;
`newDiscoveryClientOrDie` and `newKubeClientOrDie` model the two
`...ForConfigOrDie` constructors (lines 105, 109), whose results the source
compares against nil. The Go return pair `(*ClusterClient, error)` becomes
`Except GoError (Option ClusterClient)`: a nil pointer is `none`. On the
no-endpoint path the source returns the address of the zero-valued local
`clusterClientSet`, i.e. a non-nil pointer with both handles nil, and the
outer `err`, which is nil at that point. -/
def NewClusterClientSet
    (chooseHostInterface : Except GoError Nat)
    (buildConfigFromKubeconfigGetter : String → Except GoError RestConfig)
    (newDiscoveryClientOrDie : RestConfig → Option DiscoveryClient)
    (newKubeClientOrDie : RestConfig → Option KubeClientSet)
    (c : ClusterSpec) : Except GoError (Option ClusterClient) :=
  match chooseHostInterface with
  | .error e => .error e
  | .ok hostIP =>
      match selectServerAddress hostIP c.serverAddressByClientCIDRs with
      | .error e => .error e
      | .ok serverAddress =>
          if serverAddress ≠ "" then
            match buildConfigFromKubeconfigGetter serverAddress with
            | .error e => .error e
            | .ok clusterConfig =>
                let clusterConfig :=
                  { clusterConfig with qps := KubeAPIQPS, burst := KubeAPIBurst }
                match newDiscoveryClientOrDie (AddUserAgent clusterConfig UserAgentName) with
                | none => .ok none
                | some d =>
                    match newKubeClientOrDie (AddUserAgent clusterConfig UserAgentName) with
                    | none => .ok none
                    | some k =>
                        .ok (some { discoveryClient := some d, kubeClient := some k })
          else
            .ok (some { discoveryClient := none, kubeClient := none })

/-- Whether a pair's CIDR string parses. -/
def parsesOk (p : ServerAddressByClientCIDR) : Bool :=
  match ParseCIDR p.clientCIDR with
  | .ok _ => true
  | .error _ => false

/-- Whether a pair's CIDR parses and its network contains `hostIP`. -/
def pairMatches (hostIP : Nat) (p : ServerAddressByClientCIDR) : Bool :=
  match ParseCIDR p.clientCIDR with
  | .ok cidrnet => cidrnet.Contains hostIP
  | .error _ => false

/- ### The default credential resolver (source lines 44, 47-71) -/

/-- A fetched secret: its data map, modelled as an association list with the
map's unique keys. -/
structure Secret where
  data : List (String × String)
deriving DecidableEq, Repr

/-- A parsed client-config document (`clientcmdapi.Config`); its structure
is irrelevant to the claims, only its identity. -/
structure KubeconfigConfig where
  raw : String
deriving DecidableEq, Repr

/-- Embedding of `KubeconfigGetterForCluster` (source lines 49-71), the returned getter
already invoked, with the runtime environment passed in: `podNamespace` is
`os.Getenv("POD_NAMESPACE")` (empty when unset); `newInCluster` the outcome
of `client.NewInCluster()`; `getSecret namespace name` the outcome of
`client.Secrets(namespace).Get(name)`; `load` is `clientcmd.Load`; and
`secretRefName` is `c.Spec.SecretRef.Name`. -/
def KubeconfigGetterForCluster
    (podNamespace : String)
    (newInCluster : Except GoError Unit)
    (getSecret : String → String → Except GoError Secret)
    (load : String → Except GoError KubeconfigConfig)
    (secretRefName : String) : Except GoError KubeconfigConfig :=
  if podNamespace == "" then
    .error "unexpected: POD_NAMESPACE env var returned empty string"
  else
    match newInCluster with
    | .error e => .error ("error in creating in-cluster client: " ++ e)
    | .ok _ =>
        match getSecret podNamespace secretRefName with
        | .error e => .error ("error in fetching secret: " ++ e)
        | .ok secret =>
            match secret.data.lookup KubeconfigSecretDataKey with
            | none =>
                .error ("secret does not have data with key: " ++
                        KubeconfigSecretDataKey)
            | some data => load data

/- ### Go string ordering (sort.Strings), used by sets.String.List() -/

/-- Go's lexicographic string comparison, on the code-point sequences (for
valid UTF-8, identical to Go's byte-wise order). -/
def charListLe : List Char → List Char → Bool
  | [], _ => true
  | _ :: _, [] => false
  | c :: cs, d :: ds =>
      if c.toNat < d.toNat then true
      else if d.toNat < c.toNat then false
      else charListLe cs ds

/-- Go's `s <= t` on strings. -/
def stringLe (s t : String) : Bool := charListLe s.data t.data

/-- Go's string order as a relation, for sorting. -/
def GoLe (s t : String) : Prop := stringLe s t = true

instance : DecidableRel GoLe := fun s t =>
  show Decidable (stringLe s t = true) from inferInstance

/-- Rendering step of `sets.String.List()`: the members sorted by Go's string
order (`sort.Strings`). -/
def sortStrings (l : List String) : List String := List.insertionSort GoLe l

/- ### Topology discovery (source lines 166-220) -/

/-- Constant `unversioned.LabelZoneFailureDomain`. -/
def LabelZoneFailureDomain : String := "failure-domain.beta.kubernetes.io/zone"

/-- Constant `unversioned.LabelZoneRegion`. -/
def LabelZoneRegion : String := "failure-domain.beta.kubernetes.io/region"

/-- Model of `api.Node`, reduced to what discovery reads: name and the label map,
modelled as an association list with the map's unique keys. -/
structure Node where
  name : String
  labels : List (String × String)
deriving DecidableEq, Repr

/-- Embedding of `getZoneNameForNode` (source lines 172-180): scan the label map for the
zone key (over a map with unique keys, the range loop's first hit is the
key's unique binding, i.e. a lookup); a node without it yields the
node-identifying error of lines 178-179. -/
def getZoneNameForNode (node : Node) : Except GoError String :=
  match node.labels.lookup LabelZoneFailureDomain with
  | some value => .ok value
  | none =>
      .error ("Zone name for node " ++ node.name ++
              " not found. No label with key " ++ LabelZoneFailureDomain)

/-- Embedding of `getRegionNameForNode` (source lines 183-191): the same for the region
key. -/
def getRegionNameForNode (node : Node) : Except GoError String :=
  match node.labels.lookup LabelZoneRegion with
  | some value => .ok value
  | none =>
      .error ("Region name for node " ++ node.name ++
              " not found. No label with key " ++ LabelZoneRegion)

/-- The node loop of `getZoneNames` (source lines 201-218): for each node,
fetch its zone name (aborting on error) and insert it into the accumulating
set (`sets.String.Insert`, modelled by `List.insert` over the distinct
members); for the node at index 0 only, also fetch the region (aborting on
error). -/
def zonesLoop : List Node → Nat → List String → String →
    Except GoError (List String × String)
  | [], _, zoneNames, region => .ok (zoneNames, region)
  | node :: rest, i, zoneNames, region =>
      match getZoneNameForNode node with
      | .error e => .error e
      | .ok zoneName =>
          let zoneNames := zoneNames.insert zoneName
          if i == 0 then
            match getRegionNameForNode node with
            | .error e => .error e
            | .ok r => zonesLoop rest (i + 1) zoneNames r
          else
            zonesLoop rest (i + 1) zoneNames region

/-- Embedding of `getZoneNames` (source lines 194-220). `nodesList` is the outcome of the
node listing call of line 196; a listing error propagates (lines 197-200).
On success the zone set is rendered sorted (`zoneNames.List()`, line 219)
and returned with the region taken from the first node. -/
def getZoneNames (nodesList : Except GoError (List Node)) :
    Except GoError (List String × String) :=
  match nodesList with
  | .error e => .error e
  | .ok nodes =>
      match zonesLoop nodes 0 [] "" with
      | .error e => .error e
      | .ok (zoneNames, region) => .ok (sortStrings zoneNames, region)

/-- Embedding of `GetClusterZones` (source lines 167-169), which delegates to `getZoneNames`. -/
def GetClusterZones (nodesList : Except GoError (List Node)) :
    Except GoError (List String × String) :=
  getZoneNames nodesList

/-- Whether a node carries the zone label. -/
def hasZone (n : Node) : Bool := (n.labels.lookup LabelZoneFailureDomain).isSome

/-- Whether a node carries the region label. -/
def hasRegion (n : Node) : Bool := (n.labels.lookup LabelZoneRegion).isSome

/-- The node's zone label value (defaulting to "" when absent). -/
def zoneOf (n : Node) : String := (n.labels.lookup LabelZoneFailureDomain).getD ""

/-- The node's region label value (defaulting to "" when absent). -/
def regionOf (n : Node) : String := (n.labels.lookup LabelZoneRegion).getD ""

/-- Whether a Go call outcome is an error. -/
def exceptIsError {α : Type} : Except GoError α → Bool
  | .error _ => true
  | .ok _ => false

/- ### Proofs: the Go string order is total, transitive and antisymmetric -/

theorem charListLe_cons_iff (a b : Char) (as bs : List Char) :
    charListLe (a :: as) (b :: bs) = true ↔
      (a.toNat < b.toNat ∨ (a.toNat = b.toNat ∧ charListLe as bs = true)) := by
  by_cases h1 : a.toNat < b.toNat
  · simp [charListLe, h1]
  · by_cases h2 : b.toNat < a.toNat
    · have hne : a.toNat ≠ b.toNat := by omega
      simp [charListLe, h1, h2, hne]
    · have he : a.toNat = b.toNat := by omega
      simp [charListLe, h1, h2, he]

theorem charListLe_total : ∀ cs ds : List Char,
    charListLe cs ds = true ∨ charListLe ds cs = true
  | [], _ => Or.inl rfl
  | _ :: _, [] => Or.inr rfl
  | c :: cs, d :: ds => by
      rcases Nat.lt_trichotomy c.toNat d.toNat with h | h | h
      · exact Or.inl ((charListLe_cons_iff c d cs ds).mpr (Or.inl h))
      · rcases charListLe_total cs ds with ih | ih
        · exact Or.inl ((charListLe_cons_iff c d cs ds).mpr (Or.inr ⟨h, ih⟩))
        · exact Or.inr ((charListLe_cons_iff d c ds cs).mpr (Or.inr ⟨h.symm, ih⟩))
      · exact Or.inr ((charListLe_cons_iff d c ds cs).mpr (Or.inl h))

theorem charListLe_antisymm : ∀ cs ds : List Char,
    charListLe cs ds = true → charListLe ds cs = true → cs = ds
  | [], [], _, _ => rfl
  | [], _ :: _, _, h2 => by simp [charListLe] at h2
  | _ :: _, [], h1, _ => by simp [charListLe] at h1
  | c :: cs, d :: ds, h1, h2 => by
      rw [charListLe_cons_iff] at h1 h2
      rcases h1 with h1 | ⟨h1e, h1r⟩
      · rcases h2 with h2 | ⟨h2e, _⟩
        · omega
        · omega
      · rcases h2 with h2 | ⟨_, h2r⟩
        · omega
        · have hcd : c = d := Char.ext (UInt32.toNat.inj h1e)
          rw [hcd, charListLe_antisymm cs ds h1r h2r]

theorem charListLe_trans : ∀ as bs cs : List Char,
    charListLe as bs = true → charListLe bs cs = true →
    charListLe as cs = true
  | [], _, _, _, _ => rfl
  | _ :: _, [], _, h1, _ => by simp [charListLe] at h1
  | _ :: _, _ :: _, [], _, h2 => by simp [charListLe] at h2
  | a :: as, b :: bs, c :: cs, h1, h2 => by
      rw [charListLe_cons_iff] at h1 h2 ⊢
      rcases h1 with h1 | ⟨h1e, h1r⟩
      · rcases h2 with h2 | ⟨h2e, _⟩
        · exact Or.inl (by omega)
        · exact Or.inl (by omega)
      · rcases h2 with h2 | ⟨h2e, h2r⟩
        · exact Or.inl (by omega)
        · exact Or.inr ⟨h1e.trans h2e, charListLe_trans as bs cs h1r h2r⟩

instance : IsTotal String GoLe :=
  ⟨fun s t => charListLe_total s.data t.data⟩

instance : IsTrans String GoLe :=
  ⟨fun a b c => charListLe_trans a.data b.data c.data⟩

instance : IsAntisymm String GoLe := by
  refine ⟨fun a b h1 h2 => ?_⟩
  obtain ⟨l⟩ := a
  obtain ⟨m⟩ := b
  exact congrArg String.mk (charListLe_antisymm l m h1 h2)

theorem sortStrings_eq_of_perm {l m : List String} (h : List.Perm l m) :
    sortStrings l = sortStrings m :=
  List.eq_of_perm_of_sorted
    ((List.perm_insertionSort GoLe l).trans
      (h.trans (List.perm_insertionSort GoLe m).symm))
    (List.sorted_insertionSort GoLe l) (List.sorted_insertionSort GoLe m)

/-- If every pair parses and none matches, the loop leaves `serverAddress`
at its zero value. -/
/- ### Helper lemmas about the selection loop -/

theorem selectServerAddress_of_noMatch (hostIP : Nat)
    (pairs : List ServerAddressByClientCIDR)
    (h : (pairs.all fun p => parsesOk p && !(pairMatches hostIP p)) = true) :
    selectServerAddress hostIP pairs = .ok "" := by
  induction pairs with
  | nil => rfl
  | cons item rest ih =>
      simp only [List.all_cons, Bool.and_eq_true, Bool.not_eq_true'] at h
      obtain ⟨⟨hp, hm⟩, hrest⟩ := h
      cases hcidr : ParseCIDR item.clientCIDR with
      | error e => simp [parsesOk, hcidr] at hp
      | ok cidrnet =>
          simp only [pairMatches, hcidr] at hm
          simp only [selectServerAddress, hcidr, hm, Bool.false_eq_true,
                     if_false]
          exact ih (by simpa using hrest)

/-- A pair whose CIDR fails to parse, reached after only parsing,
non-matching pairs, aborts the loop with its parse error. -/
theorem selectServerAddress_of_error (hostIP : Nat)
    (pre post : List ServerAddressByClientCIDR)
    (item : ServerAddressByClientCIDR) (e : GoError)
    (hpre : (pre.all fun p => parsesOk p && !(pairMatches hostIP p)) = true)
    (hbad : ParseCIDR item.clientCIDR = .error e) :
    selectServerAddress hostIP (pre ++ item :: post) = .error e := by
  induction pre with
  | nil =>
      simp only [List.nil_append, selectServerAddress, hbad]
  | cons q qs ih =>
      simp only [List.all_cons, Bool.and_eq_true, Bool.not_eq_true'] at hpre
      obtain ⟨⟨hp, hm⟩, hrest⟩ := hpre
      cases hcidr : ParseCIDR q.clientCIDR with
      | error e2 => simp [parsesOk, hcidr] at hp
      | ok cidrnet =>
          simp only [pairMatches, hcidr] at hm
          simp only [List.cons_append, selectServerAddress, hcidr, hm,
                     Bool.false_eq_true, if_false]
          exact ih (by simpa using hrest)

/-- The loop computes the first match: over a list of parsing CIDRs it
returns the `find?` of the match predicate, with `""` when there is none. -/
theorem selectServerAddress_eq_find (hostIP : Nat)
    (pairs : List ServerAddressByClientCIDR)
    (hparse : pairs.all parsesOk = true) :
    selectServerAddress hostIP pairs =
      .ok (match pairs.find? (pairMatches hostIP) with
           | some p => p.serverAddress
           | none => "") := by
  induction pairs with
  | nil => rfl
  | cons item rest ih =>
      simp only [List.all_cons, Bool.and_eq_true] at hparse
      obtain ⟨hp, hrest⟩ := hparse
      cases hcidr : ParseCIDR item.clientCIDR with
      | error e => simp [parsesOk, hcidr] at hp
      | ok cidrnet =>
          have hm : pairMatches hostIP item = cidrnet.Contains hostIP := by
            simp [pairMatches, hcidr]
          cases hc : cidrnet.Contains hostIP with
          | true =>
              simp only [selectServerAddress, hcidr, hc, if_true,
                         List.find?_cons, hm]
          | false =>
              simp only [selectServerAddress, hcidr, hc, Bool.false_eq_true,
                         if_false, List.find?_cons, hm]
              exact ih hrest

/- ### Helper lemmas about set accumulation and the node loop -/

theorem toFinset_listInsert (a : String) (l : List String) :
    (l.insert a).toFinset = insert a l.toFinset := by
  apply Finset.ext
  intro x
  simp [List.mem_toFinset, List.mem_insert_iff]

theorem foldl_insert_toFinset : ∀ (xs zs : List String),
    (xs.foldl (fun s x => s.insert x) zs).toFinset = zs.toFinset ∪ xs.toFinset
  | [], zs => by simp
  | x :: xs, zs => by
      simp only [List.foldl_cons]
      rw [foldl_insert_toFinset xs (zs.insert x), toFinset_listInsert,
          List.toFinset_cons, Finset.insert_union, Finset.union_insert]

theorem foldl_insert_nodup : ∀ (xs zs : List String), zs.Nodup →
    (xs.foldl (fun s x => s.insert x) zs).Nodup
  | [], _, h => h
  | x :: xs, zs, h => by
      simp only [List.foldl_cons]
      exact foldl_insert_nodup xs (zs.insert x) h.insert

theorem dedup_toFinset (l : List String) : l.dedup.toFinset = l.toFinset :=
  List.toFinset.ext fun _ => List.mem_dedup

theorem sortStrings_foldl_insert (xs : List String) :
    sortStrings (xs.foldl (fun s x => s.insert x) []) = sortStrings xs.dedup := by
  apply sortStrings_eq_of_perm
  apply List.perm_of_nodup_nodup_toFinset_eq
  · exact foldl_insert_nodup xs [] List.nodup_nil
  · exact List.nodup_dedup xs
  · rw [foldl_insert_toFinset, dedup_toFinset]
    simp

theorem zonesLoop_ok : ∀ (nodes : List Node) (i : Nat) (zs : List String)
    (region : String), nodes.all hasZone = true → i ≠ 0 →
    zonesLoop nodes i zs region =
      .ok ((nodes.map zoneOf).foldl (fun s x => s.insert x) zs, region)
  | [], _, _, _, _, _ => rfl
  | node :: rest, i, zs, region, hz, hi => by
      simp only [List.all_cons, Bool.and_eq_true] at hz
      obtain ⟨h1, h2⟩ := hz
      rw [hasZone] at h1
      obtain ⟨v, hv⟩ := Option.isSome_iff_exists.mp h1
      have hne : (i == 0) = false := by simpa using hi
      have hzo : zoneOf node = v := by rw [zoneOf, hv]; rfl
      simp only [zonesLoop, getZoneNameForNode, hv, hne, Bool.false_eq_true,
                 if_false, List.map_cons, List.foldl_cons, hzo]
      exact zonesLoop_ok rest (i + 1) (zs.insert v) region h2 (Nat.succ_ne_zero i)

theorem getZoneNames_ok_aux (nodes : List Node)
    (hz : nodes.all hasZone = true)
    (hr : nodes.head?.all hasRegion = true) :
    getZoneNames (.ok nodes) =
      .ok (sortStrings ((nodes.map zoneOf).dedup),
           (nodes.head?.map regionOf).getD "") := by
  cases nodes with
  | nil => rfl
  | cons node rest =>
      simp only [List.all_cons, Bool.and_eq_true] at hz
      obtain ⟨h1, h2⟩ := hz
      have h1s : (node.labels.lookup LabelZoneFailureDomain).isSome = true := h1
      obtain ⟨v, hv⟩ := Option.isSome_iff_exists.mp h1s
      simp only [List.head?_cons, Option.all_some] at hr
      have hrs : (node.labels.lookup LabelZoneRegion).isSome = true := hr
      obtain ⟨r, hrv⟩ := Option.isSome_iff_exists.mp hrs
      have hzo : zoneOf node = v := by rw [zoneOf, hv]; rfl
      have hro : regionOf node = r := by rw [regionOf, hrv]; rfl
      unfold getZoneNames
      simp only [zonesLoop, getZoneNameForNode, hv, getRegionNameForNode, hrv,
                 beq_self_eq_true, if_true]
      rw [zonesLoop_ok rest 1 (List.insert v []) r h2 Nat.one_ne_zero]
      have hfold : (rest.map zoneOf).foldl (fun s x => s.insert x)
          (List.insert v []) =
          ((node :: rest).map zoneOf).foldl (fun s x => s.insert x) [] := by
        simp [hzo]
      rw [hfold]
      simp only [List.map_cons] at *
      simp [hro]
      have hs := sortStrings_foldl_insert (zoneOf node :: List.map zoneOf rest)
      simpa using hs

theorem zonesLoop_error_zone : ∀ (nodes : List Node) (m : Node) (i : Nat)
    (zs : List String) (region : String),
    nodes.find? (fun n => !(hasZone n)) = some m → i ≠ 0 →
    zonesLoop nodes i zs region =
      .error ("Zone name for node " ++ m.name ++
              " not found. No label with key " ++ LabelZoneFailureDomain)
  | [], m, _, _, _, hfind, _ => by simp at hfind
  | node :: rest, m, i, zs, region, hfind, hi => by
      rw [List.find?_cons] at hfind
      cases hz : hasZone node with
      | false =>
          rw [hz] at hfind
          simp only [Bool.not_false] at hfind
          have hm : node = m := by
            simpa using hfind
          subst hm
          rw [hasZone] at hz
          have hnone : node.labels.lookup LabelZoneFailureDomain = none :=
            Option.not_isSome_iff_eq_none.mp (by simp [hz])
          simp only [zonesLoop, getZoneNameForNode, hnone]
      | true =>
          rw [hz] at hfind
          simp only [Bool.not_true] at hfind
          obtain ⟨v, hv⟩ := Option.isSome_iff_exists.mp (show (node.labels.lookup LabelZoneFailureDomain).isSome = true from hz)
          have hne : (i == 0) = false := by simpa using hi
          simp only [zonesLoop, getZoneNameForNode, hv, hne, Bool.false_eq_true,
                     if_false]
          exact zonesLoop_error_zone rest m (i + 1) (zs.insert v) region hfind
            (Nat.succ_ne_zero i)

theorem zonesLoop_isError_of_missing : ∀ (nodes : List Node) (i : Nat)
    (zs : List String) (region : String),
    nodes.all hasZone = false → i ≠ 0 →
    exceptIsError (zonesLoop nodes i zs region) = true
  | [], _, _, _, hz, _ => by simp at hz
  | node :: rest, i, zs, region, hz, hi => by
      cases hzn : hasZone node with
      | false =>
          rw [hasZone] at hzn
          have hnone : node.labels.lookup LabelZoneFailureDomain = none :=
            Option.not_isSome_iff_eq_none.mp (by simp [hzn])
          simp only [zonesLoop, getZoneNameForNode, hnone, exceptIsError]
      | true =>
          have hrest : rest.all hasZone = false := by
            simpa [hzn] using hz
          obtain ⟨v, hv⟩ := Option.isSome_iff_exists.mp (show (node.labels.lookup LabelZoneFailureDomain).isSome = true from hzn)
          have hne : (i == 0) = false := by simpa using hi
          simp only [zonesLoop, getZoneNameForNode, hv, hne, Bool.false_eq_true,
                     if_false]
          exact zonesLoop_isError_of_missing rest (i + 1) (zs.insert v) region
            hrest (Nat.succ_ne_zero i)

/- ### The claims -/

/-- C2: the health probe never returns an error (its result type is a bare
`ClusterStatus`) and is a pure function of the pair (transport error?,
response body): a transport error yields exactly the condition set
`Offline=true`; a successful response whose body is not case-insensitively
"ok" yields exactly `Ready=false, Offline=false`; a body equal to "ok" up to
case yields exactly `Ready=true`; the condition list is never empty and never
contains a condition outside the specified set for its case. -/
theorem getClusterHealthStatus_cases (currentTime : Nat)
    (healthzResult : Except GoError String) :
    (GetClusterHealthStatus currentTime healthzResult).conditions ≠ [] ∧
    condSummary (GetClusterHealthStatus currentTime healthzResult) =
      (match healthzResult with
       | .error _ => [(.clusterOffline, true)]
       | .ok body =>
           if EqualFold body "ok" then [(.clusterReady, true)]
           else [(.clusterReady, false), (.clusterOffline, false)]) := by
  cases healthzResult with
  | error e =>
      simp [GetClusterHealthStatus, condSummary, newNodeOfflineCondition]
  | ok body =>
      by_cases h : EqualFold body "ok" = true
      · simp [GetClusterHealthStatus, condSummary, h,
              newClusterReadyCondition]
      · simp [GetClusterHealthStatus, condSummary, h,
              newClusterNotReadyCondition, newNodeNotOfflineCondition]

/-- C10: when the request succeeds but the body is not "ok" up to case, the
returned condition sequence is exactly two conditions in a fixed order:
first `Ready=false` with reason "ClusterNotReady", then `Offline=false` with
reason "ClusterReachable". -/
theorem getClusterHealthStatus_notOk_order (currentTime : Nat) (body : String)
    (h : EqualFold body "ok" = false) :
    (GetClusterHealthStatus currentTime (.ok body)).conditions =
      [{ type_ := .clusterReady
         status := .conditionFalse
         reason := "ClusterNotReady"
         message := "/healthz responded without ok"
         lastProbeTime := currentTime
         lastTransitionTime := currentTime },
       { type_ := .clusterOffline
         status := .conditionFalse
         reason := "ClusterReachable"
         message := "cluster is reachable"
         lastProbeTime := currentTime
         lastTransitionTime := currentTime }] := by
  simp [GetClusterHealthStatus, h, newClusterNotReadyCondition,
        newNodeNotOfflineCondition]

/-- Witness for C10 at the spec's example body "fail". -/
theorem getClusterHealthStatus_notOk_order_witness :
    EqualFold "fail" "ok" = false ∧
    (GetClusterHealthStatus 0 (.ok "fail")).conditions =
      [{ type_ := .clusterReady
         status := .conditionFalse
         reason := "ClusterNotReady"
         message := "/healthz responded without ok"
         lastProbeTime := 0
         lastTransitionTime := 0 },
       { type_ := .clusterOffline
         status := .conditionFalse
         reason := "ClusterReachable"
         message := "cluster is reachable"
         lastProbeTime := 0
         lastTransitionTime := 0 }] :=
  ⟨by decide, getClusterHealthStatus_notOk_order 0 "fail" (by decide)⟩

/-- C3: over a pair list whose CIDR strings all parse, endpoint selection
iterates the pairs in their given order and returns the server address of
the first pair whose CIDR network contains the local host IP — first match
wins, even when several CIDRs contain the IP; when no pair's CIDR contains
the IP the result is the empty ("no endpoint") address, and in particular
the empty pair list always yields the empty address. -/
theorem selectServerAddress_firstMatchWins (hostIP : Nat)
    (pairs : List ServerAddressByClientCIDR)
    (hparse : pairs.all parsesOk = true) :
    selectServerAddress hostIP pairs =
      .ok (match pairs.find? (pairMatches hostIP) with
           | some p => p.serverAddress
           | none => "") :=
  selectServerAddress_eq_find hostIP pairs hparse

/-- Witness for C3: two overlapping CIDRs both containing 10.1.2.3; the
first pair's address is selected; and with no containing CIDR the empty
address results. -/
theorem selectServerAddress_firstMatchWins_witness :
    ([{ clientCIDR := "10.0.0.0/8", serverAddress := "http://a" },
      { clientCIDR := "10.1.0.0/16", serverAddress := "http://b" }] :
        List ServerAddressByClientCIDR).all parsesOk = true ∧
    selectServerAddress 167837187
      [{ clientCIDR := "10.0.0.0/8", serverAddress := "http://a" },
       { clientCIDR := "10.1.0.0/16", serverAddress := "http://b" }] =
      .ok "http://a" ∧
    selectServerAddress 3232235777
      [{ clientCIDR := "10.0.0.0/8", serverAddress := "http://a" }] = .ok "" :=
  ⟨by decide,
   by rw [selectServerAddress_firstMatchWins 167837187 _ (by decide)]; rfl,
   by rw [selectServerAddress_firstMatchWins 3232235777 _ (by decide)]; rfl⟩

/-- C1 counterexample: on a spec whose single CIDR (10.0.0.0/8) does not
contain the host IP (192.168.1.1), `NewClusterClientSet` returns no error
and a NON-nil client — the address of the zero-valued `clusterClientSet`
struct, whose two handles are nil — not the nil client the claim states. -/
theorem newClusterClientSet_noMatch_notNil :
    NewClusterClientSet (.ok 3232235777)
      (fun _ => .error "resolver failed")
      (fun cfg => some { config := cfg })
      (fun cfg => some { config := cfg })
      { serverAddressByClientCIDRs :=
          [{ clientCIDR := "10.0.0.0/8", serverAddress := "http://a" }]
        secretRefName := "s" } =
      .ok (some { discoveryClient := none, kubeClient := none }) ∧
    (Except.ok (some { discoveryClient := none, kubeClient := none }) :
        Except GoError (Option ClusterClient)) ≠ .ok none := by
  exact ⟨by decide, by decide⟩

/-- C1 (amended): when every pair's CIDR parses and none contains the local
host IP, `NewClusterClientSet` returns no error and a non-nil client whose
two handles are both nil (the zero-valued struct, not a nil pointer); when
the selection produces a (necessarily nonempty) server address but the
credential resolution behind `BuildConfigFromKubeconfigGetter` fails, it
returns a nil client with that error — so callers distinguish the
"not applicable" and failure outcomes by the error value. -/
theorem newClusterClientSet_outcomes (hostIP : Nat)
    (pairs : List ServerAddressByClientCIDR) (name : String)
    (bc : String → Except GoError RestConfig)
    (nd : RestConfig → Option DiscoveryClient)
    (nk : RestConfig → Option KubeClientSet) :
    ((pairs.all fun p => parsesOk p && !(pairMatches hostIP p)) = true →
      NewClusterClientSet (.ok hostIP) bc nd nk ⟨pairs, name⟩ =
        .ok (some { discoveryClient := none, kubeClient := none })) ∧
    (∀ addr e, selectServerAddress hostIP pairs = .ok addr → addr ≠ "" →
      bc addr = .error e →
      NewClusterClientSet (.ok hostIP) bc nd nk ⟨pairs, name⟩ = .error e) := by
  constructor
  · intro h
    have hsel := selectServerAddress_of_noMatch hostIP pairs h
    simp only [NewClusterClientSet, hsel]
    rfl
  · intro addr e hsel haddr hbc
    simp only [NewClusterClientSet, hsel, haddr, if_true, hbc]
    simp [haddr]

/-- Witness for the amended C1: both outcomes at concrete inputs — the
10.0.0.0/8 pair does not cover 192.168.1.1 (non-nil empty client, no
error), and it covers 10.0.0.1, where the failing resolver's error is
returned. -/
theorem newClusterClientSet_outcomes_witness :
    NewClusterClientSet (.ok 3232235777) (fun _ => .error "no creds")
      (fun cfg => some { config := cfg })
      (fun cfg => some { config := cfg })
      { serverAddressByClientCIDRs :=
          [{ clientCIDR := "10.0.0.0/8", serverAddress := "http://a" }]
        secretRefName := "s" } =
      .ok (some { discoveryClient := none, kubeClient := none }) ∧
    NewClusterClientSet (.ok 167772161) (fun _ => .error "no creds")
      (fun cfg => some { config := cfg })
      (fun cfg => some { config := cfg })
      { serverAddressByClientCIDRs :=
          [{ clientCIDR := "10.0.0.0/8", serverAddress := "http://a" }]
        secretRefName := "s" } =
      .error "no creds" :=
  ⟨(newClusterClientSet_outcomes 3232235777
      [{ clientCIDR := "10.0.0.0/8", serverAddress := "http://a" }] "s"
      (fun _ => .error "no creds")
      (fun cfg => some { config := cfg })
      (fun cfg => some { config := cfg })).1 (by decide),
   (newClusterClientSet_outcomes 167772161
      [{ clientCIDR := "10.0.0.0/8", serverAddress := "http://a" }] "s"
      (fun _ => .error "no creds")
      (fun cfg => some { config := cfg })
      (fun cfg => some { config := cfg })).2 "http://a" "no creds"
      (by decide) (by decide) rfl⟩

/-- C7 counterexample: a spec whose pair list contains the malformed CIDR
string "garbage" — but after a pair that matches the host — does not fail:
the loop leaves at the first match and never parses the malformed entry, so
construction succeeds instead of returning a parse error. -/
theorem newClusterClientSet_malformed_skipped :
    ParseCIDR "garbage" = .error "invalid CIDR address: garbage" ∧
    NewClusterClientSet (.ok 0)
      (fun addr => .ok { host := addr, userAgent := "", qps := 0, burst := 0 })
      (fun cfg => some { config := cfg })
      (fun cfg => some { config := cfg })
      { serverAddressByClientCIDRs :=
          [{ clientCIDR := "0.0.0.0/0", serverAddress := "http://a" },
           { clientCIDR := "garbage", serverAddress := "http://b" }]
        secretRefName := "s" } =
      .ok (some
        { discoveryClient := some { config :=
            { host := "http://a", userAgent := "Cluster-Controller"
              qps := 20, burst := 30 } }
          kubeClient := some { config :=
            { host := "http://a", userAgent := "Cluster-Controller"
              qps := 20, burst := 30 } } }) := by
  exact ⟨by decide, by decide⟩

/-- C7 (amended): a malformed CIDR string that the selection loop reaches —
one preceded only by well-formed, non-matching pairs — makes client
construction fail fast with its parse error rather than being skipped;
a malformed entry after the first matching pair is never parsed. -/
theorem newClusterClientSet_malformed_failFast (hostIP : Nat)
    (pre post : List ServerAddressByClientCIDR)
    (item : ServerAddressByClientCIDR) (name : String)
    (bc : String → Except GoError RestConfig)
    (nd : RestConfig → Option DiscoveryClient)
    (nk : RestConfig → Option KubeClientSet) (e : GoError)
    (hpre : (pre.all fun p => parsesOk p && !(pairMatches hostIP p)) = true)
    (hbad : ParseCIDR item.clientCIDR = .error e) :
    NewClusterClientSet (.ok hostIP) bc nd nk ⟨pre ++ item :: post, name⟩ =
      .error e := by
  simp only [NewClusterClientSet,
             selectServerAddress_of_error hostIP pre post item e hpre hbad]

/-- Witness for the amended C7: a non-matching well-formed pair followed by
the malformed "garbage" entry yields exactly its parse error. -/
theorem newClusterClientSet_malformed_failFast_witness :
    NewClusterClientSet (.ok 3232235777)
      (fun addr => .ok { host := addr, userAgent := "", qps := 0, burst := 0 })
      (fun cfg => some { config := cfg })
      (fun cfg => some { config := cfg })
      { serverAddressByClientCIDRs :=
          [{ clientCIDR := "10.0.0.0/8", serverAddress := "http://a" },
           { clientCIDR := "garbage", serverAddress := "http://b" }]
        secretRefName := "s" } =
      .error "invalid CIDR address: garbage" :=
  newClusterClientSet_malformed_failFast 3232235777
    [{ clientCIDR := "10.0.0.0/8", serverAddress := "http://a" }] []
    { clientCIDR := "garbage", serverAddress := "http://b" } "s"
    (fun addr => .ok { host := addr, userAgent := "", qps := 0, burst := 0 })
    (fun cfg => some { config := cfg })
    (fun cfg => some { config := cfg })
    "invalid CIDR address: garbage" (by decide) (by decide)

/-- C8: the default credential resolver fails with a distinct error in each
case — empty/unset POD_NAMESPACE, secret fetch failure, and a fetched
secret lacking the well-known "kubeconfig" data key, the last reported as
its own error naming the key (never silently defaulted); the three error
messages are pairwise distinct. -/
theorem kubeconfigGetterForCluster_distinct_errors
    (podNamespace : String) (newInCluster : Except GoError Unit)
    (getSecret : String → String → Except GoError Secret)
    (load : String → Except GoError KubeconfigConfig)
    (secretRefName : String) :
    (podNamespace = "" →
      KubeconfigGetterForCluster podNamespace newInCluster getSecret load
          secretRefName =
        .error "unexpected: POD_NAMESPACE env var returned empty string") ∧
    (∀ e, podNamespace ≠ "" → newInCluster = .ok () →
      getSecret podNamespace secretRefName = .error e →
      KubeconfigGetterForCluster podNamespace newInCluster getSecret load
          secretRefName =
        .error ("error in fetching secret: " ++ e)) ∧
    (∀ secret, podNamespace ≠ "" → newInCluster = .ok () →
      getSecret podNamespace secretRefName = .ok secret →
      secret.data.lookup KubeconfigSecretDataKey = none →
      KubeconfigGetterForCluster podNamespace newInCluster getSecret load
          secretRefName =
        .error ("secret does not have data with key: " ++
                KubeconfigSecretDataKey)) ∧
    ("secret does not have data with key: " ++ KubeconfigSecretDataKey ≠
      "unexpected: POD_NAMESPACE env var returned empty string") ∧
    (∀ e : GoError,
      "error in fetching secret: " ++ e ≠
        "unexpected: POD_NAMESPACE env var returned empty string" ∧
      "error in fetching secret: " ++ e ≠
        "secret does not have data with key: " ++ KubeconfigSecretDataKey) := by
  refine ⟨?_, ?_, ?_, ?_, ?_⟩
  · intro h
    simp [KubeconfigGetterForCluster, h]
  · intro e hns hic hget
    simp [KubeconfigGetterForCluster, hns, hic, hget]
  · intro secret hns hic hget hkey
    simp [KubeconfigGetterForCluster, hns, hic, hget, hkey]
  · decide
  · intro e
    obtain ⟨l⟩ := e
    constructor
    · intro h
      have h2 := congrArg String.data h
      simp [String.append, KubeconfigSecretDataKey] at h2
    · intro h
      have h2 := congrArg String.data h
      simp [String.append, KubeconfigSecretDataKey] at h2

/-- Witness for C8: all three failures at concrete inputs — unset
namespace; a secret store refusing the fetch; and a fetched secret whose
only key is "other". -/
theorem kubeconfigGetterForCluster_distinct_errors_witness :
    KubeconfigGetterForCluster "" (.ok ())
        (fun _ _ => .ok { data := [] })
        (fun d => .ok { raw := d }) "cluster1-secret" =
      .error "unexpected: POD_NAMESPACE env var returned empty string" ∧
    KubeconfigGetterForCluster "federation" (.ok ())
        (fun _ _ => .error "secrets \x22cluster1-secret\x22 not found")
        (fun d => .ok { raw := d }) "cluster1-secret" =
      .error "error in fetching secret: secrets \x22cluster1-secret\x22 not found" ∧
    KubeconfigGetterForCluster "federation" (.ok ())
        (fun _ _ => .ok { data := [("other", "zzz")] })
        (fun d => .ok { raw := d }) "cluster1-secret" =
      .error "secret does not have data with key: kubeconfig" :=
  ⟨(kubeconfigGetterForCluster_distinct_errors "" (.ok ())
      (fun _ _ => .ok { data := [] }) (fun d => .ok { raw := d })
      "cluster1-secret").1 rfl,
   ((kubeconfigGetterForCluster_distinct_errors "federation" (.ok ())
      (fun _ _ => .error "secrets \x22cluster1-secret\x22 not found")
      (fun d => .ok { raw := d }) "cluster1-secret").2.1
      "secrets \x22cluster1-secret\x22 not found" (by decide) rfl rfl).trans
      (by decide),
   ((kubeconfigGetterForCluster_distinct_errors "federation" (.ok ())
      (fun _ _ => .ok { data := [("other", "zzz")] })
      (fun d => .ok { raw := d }) "cluster1-secret").2.2.1
      { data := [("other", "zzz")] } (by decide) rfl rfl (by decide)).trans
      (by decide)⟩

/-- C4: for a node list in which every node carries the zone label and the
first node carries the region label, discovery returns, with no error, the
deduplicated set of all zone label values rendered as a sorted sequence,
together with the first node's region label value ("" for the empty list). -/
theorem getZoneNames_allLabelled (nodes : List Node)
    (hz : nodes.all hasZone = true)
    (hr : nodes.head?.all hasRegion = true) :
    getZoneNames (.ok nodes) =
      .ok (sortStrings ((nodes.map zoneOf).dedup),
           (nodes.head?.map regionOf).getD "") :=
  getZoneNames_ok_aux nodes hz hr

/-- Witness for C4 at the spec's example (zones us-east-1a, us-east-1b,
us-east-1a; region us-east-1 on the first node) and at the empty list. -/
theorem getZoneNames_allLabelled_witness :
    getZoneNames (.ok
      [{ name := "n1", labels := [(LabelZoneFailureDomain, "us-east-1a"),
                                  (LabelZoneRegion, "us-east-1")] },
       { name := "n2", labels := [(LabelZoneFailureDomain, "us-east-1b")] },
       { name := "n3", labels := [(LabelZoneFailureDomain, "us-east-1a")] }]) =
      .ok (["us-east-1a", "us-east-1b"], "us-east-1") ∧
    getZoneNames (.ok ([] : List Node)) = .ok ([], "") :=
  ⟨(getZoneNames_allLabelled
      [{ name := "n1", labels := [(LabelZoneFailureDomain, "us-east-1a"),
                                  (LabelZoneRegion, "us-east-1")] },
       { name := "n2", labels := [(LabelZoneFailureDomain, "us-east-1b")] },
       { name := "n3", labels := [(LabelZoneFailureDomain, "us-east-1a")] }]
      (by decide) (by decide)).trans (by decide),
   (getZoneNames_allLabelled [] (by decide) (by decide)).trans (by decide)⟩

/-- C5 counterexample: in the list [a: zone label only, b: no labels] the
second node lacks the zone label, yet discovery's error identifies node "a"
and the missing REGION key — not, as the claim states, the first
zone-missing node "b" with the zone key. -/
theorem getZoneNames_regionErrorWins :
    getZoneNames (.ok
      [{ name := "a", labels := [(LabelZoneFailureDomain, "z")] },
       { name := "b", labels := [] }]) =
      .error ("Region name for node a not found. No label with key " ++
              LabelZoneRegion) ∧
    ("Region name for node a not found. No label with key " ++
        LabelZoneRegion) ≠
      ("Zone name for node b not found. No label with key " ++
        LabelZoneFailureDomain) := by
  exact ⟨by decide, by decide⟩

/-- C5 (amended): for a node list containing a node without the zone label,
and whose first node does not divert to the region error first (the first
node either lacks the zone label itself or carries the region label),
discovery aborts with the error identifying, by name and the zone key, the
first node in listing order lacking the zone label, and returns no partial
result; in particular with a fully-labelled first node and a second node
lacking the zone label, discovery fails identifying the second node. -/
theorem getZoneNames_firstMissingZone (nodes : List Node) (m : Node)
    (hfind : nodes.find? (fun n => !(hasZone n)) = some m)
    (hr : nodes.head?.all (fun n => !(hasZone n) || hasRegion n) = true) :
    getZoneNames (.ok nodes) =
      .error ("Zone name for node " ++ m.name ++
              " not found. No label with key " ++ LabelZoneFailureDomain) := by
  cases nodes with
  | nil => simp at hfind
  | cons node rest =>
      rw [List.find?_cons] at hfind
      cases hz : hasZone node with
      | false =>
          rw [hz] at hfind
          simp only [Bool.not_false] at hfind
          have hm : node = m := by simpa using hfind
          subst hm
          rw [hasZone] at hz
          have hnone : node.labels.lookup LabelZoneFailureDomain = none :=
            Option.not_isSome_iff_eq_none.mp (by simp [hz])
          simp only [getZoneNames, zonesLoop, getZoneNameForNode, hnone]
      | true =>
          rw [hz] at hfind
          simp only [Bool.not_true] at hfind
          simp only [List.head?_cons, Option.all_some, hz, Bool.not_true,
                     Bool.false_or] at hr
          obtain ⟨v, hv⟩ := Option.isSome_iff_exists.mp
            (show (node.labels.lookup LabelZoneFailureDomain).isSome = true from hz)
          obtain ⟨r, hrv⟩ := Option.isSome_iff_exists.mp
            (show (node.labels.lookup LabelZoneRegion).isSome = true from hr)
          simp only [getZoneNames, zonesLoop, getZoneNameForNode, hv,
                     getRegionNameForNode, hrv, beq_self_eq_true, if_true]
          rw [zonesLoop_error_zone rest m 1 (List.insert v []) r hfind
                Nat.one_ne_zero]

/-- Witness for the amended C5: fully-labelled first node, label-less second
node; the error names the second node and the zone key. -/
theorem getZoneNames_firstMissingZone_witness :
    getZoneNames (.ok
      [{ name := "a", labels := [(LabelZoneFailureDomain, "z"),
                                 (LabelZoneRegion, "r")] },
       { name := "b", labels := [] }]) =
      .error ("Zone name for node b not found. No label with key failure-domain.beta.kubernetes.io/zone") :=
  (getZoneNames_firstMissingZone
    [{ name := "a", labels := [(LabelZoneFailureDomain, "z"),
                               (LabelZoneRegion, "r")] },
     { name := "b", labels := [] }]
    { name := "b", labels := [] } (by decide) (by decide)).trans (by decide)

/-- C6 counterexample: the second listed node lacks the region label, yet
discovery succeeds (no error) and returns the first node's region — region
labels of nodes after the first are never consulted. -/
theorem getZoneNames_secondNoRegion_ok :
    hasRegion { name := "b", labels := [(LabelZoneFailureDomain, "z2")] } =
      false ∧
    getZoneNames (.ok
      [{ name := "a", labels := [(LabelZoneFailureDomain, "z1"),
                                 (LabelZoneRegion, "r")] },
       { name := "b", labels := [(LabelZoneFailureDomain, "z2")] }]) =
      .ok (["z1", "z2"], "r") := by
  exact ⟨by decide, by decide⟩

/-- C6 (amended): discovery fails as a whole, returning an error and no
partial result, when the FIRST listed node lacks the region label, and
likewise when any listed node lacks the zone label; the region label is
consulted on the first node only. -/
theorem getZoneNames_fail_conditions (nodes : List Node) :
    (nodes.head?.all hasRegion = false →
      exceptIsError (getZoneNames (.ok nodes)) = true) ∧
    (nodes.all hasZone = false →
      exceptIsError (getZoneNames (.ok nodes)) = true) := by
  constructor
  · intro h
    cases nodes with
    | nil => simp at h
    | cons node rest =>
        simp only [List.head?_cons, Option.all_some] at h
        cases hz : hasZone node with
        | false =>
            rw [hasZone] at hz
            have hnone : node.labels.lookup LabelZoneFailureDomain = none :=
              Option.not_isSome_iff_eq_none.mp (by simp [hz])
            simp only [getZoneNames, zonesLoop, getZoneNameForNode, hnone,
                       exceptIsError]
        | true =>
            obtain ⟨v, hv⟩ := Option.isSome_iff_exists.mp
              (show (node.labels.lookup LabelZoneFailureDomain).isSome = true from hz)
            rw [hasRegion] at h
            have hrnone : node.labels.lookup LabelZoneRegion = none :=
              Option.not_isSome_iff_eq_none.mp (by simp [h])
            simp only [getZoneNames, zonesLoop, getZoneNameForNode, hv,
                       getRegionNameForNode, hrnone, beq_self_eq_true,
                       if_true, exceptIsError]
  · intro h
    cases nodes with
    | nil => simp at h
    | cons node rest =>
        cases hz : hasZone node with
        | false =>
            rw [hasZone] at hz
            have hnone : node.labels.lookup LabelZoneFailureDomain = none :=
              Option.not_isSome_iff_eq_none.mp (by simp [hz])
            simp only [getZoneNames, zonesLoop, getZoneNameForNode, hnone,
                       exceptIsError]
        | true =>
            have hrestz : rest.all hasZone = false := by
              simpa [hz] using h
            obtain ⟨v, hv⟩ := Option.isSome_iff_exists.mp
              (show (node.labels.lookup LabelZoneFailureDomain).isSome = true from hz)
            cases hreg : hasRegion node with
            | false =>
                rw [hasRegion] at hreg
                have hrnone : node.labels.lookup LabelZoneRegion = none :=
                  Option.not_isSome_iff_eq_none.mp (by simp [hreg])
                simp only [getZoneNames, zonesLoop, getZoneNameForNode, hv,
                           getRegionNameForNode, hrnone, beq_self_eq_true,
                           if_true, exceptIsError]
            | true =>
                obtain ⟨r, hrv⟩ := Option.isSome_iff_exists.mp
                  (show (node.labels.lookup LabelZoneRegion).isSome = true from hreg)
                cases hres : zonesLoop rest 1 (List.insert v []) r with
                | error e =>
                    simp only [getZoneNames, zonesLoop, getZoneNameForNode,
                               hv, getRegionNameForNode, hrv,
                               beq_self_eq_true, if_true, hres, exceptIsError]
                | ok p =>
                    have hcontra := zonesLoop_isError_of_missing rest 1
                      (List.insert v []) r hrestz Nat.one_ne_zero
                    rw [hres] at hcontra
                    simp [exceptIsError] at hcontra

/-- Witness for the amended C6: a single node without the region label makes
discovery fail; a second label-less node (zone missing) also makes it
fail. -/
theorem getZoneNames_fail_conditions_witness :
    exceptIsError (getZoneNames (.ok
      [{ name := "a", labels := [(LabelZoneFailureDomain, "z")] }])) = true ∧
    exceptIsError (getZoneNames (.ok
      [{ name := "a", labels := [(LabelZoneFailureDomain, "z"),
                                 (LabelZoneRegion, "r")] },
       { name := "c", labels := [] }])) = true :=
  ⟨(getZoneNames_fail_conditions
      [{ name := "a", labels := [(LabelZoneFailureDomain, "z")] }]).1
      (by decide),
   (getZoneNames_fail_conditions
      [{ name := "a", labels := [(LabelZoneFailureDomain, "z"),
                                 (LabelZoneRegion, "r")] },
       { name := "c", labels := [] }]).2 (by decide)⟩

/-- C9: against an unchanged node set — two listings that are permutations
of one another, every node zone-labelled and each listing's first node
region-labelled — discovery yields identical zone sequences (set semantics
with a deterministic sorted rendering). -/
theorem getZoneNames_zones_permInvariant (l1 l2 : List Node)
    (hperm : List.Perm l1 l2)
    (hz : l1.all hasZone = true)
    (hr1 : l1.head?.all hasRegion = true)
    (hr2 : l2.head?.all hasRegion = true) :
    (getZoneNames (.ok l1)).map Prod.fst =
      (getZoneNames (.ok l2)).map Prod.fst := by
  have hz2 : l2.all hasZone = true := by
    rw [List.all_eq_true] at hz ⊢
    intro n hn
    exact hz n (hperm.mem_iff.mpr hn)
  rw [getZoneNames_ok_aux l1 hz hr1, getZoneNames_ok_aux l2 hz2 hr2]
  simp only [Except.map]
  congr 1
  apply sortStrings_eq_of_perm
  apply List.perm_of_nodup_nodup_toFinset_eq (List.nodup_dedup _)
    (List.nodup_dedup _)
  rw [dedup_toFinset, dedup_toFinset]
  exact List.toFinset_eq_of_perm _ _ (hperm.map zoneOf)

/-- Witness for C9: the two orderings of a two-node list give the same zone
sequence. -/
theorem getZoneNames_zones_permInvariant_witness :
    (getZoneNames (.ok
      [{ name := "a", labels := [(LabelZoneFailureDomain, "z2"),
                                 (LabelZoneRegion, "r")] },
       { name := "b", labels := [(LabelZoneFailureDomain, "z1"),
                                 (LabelZoneRegion, "r")] }])).map Prod.fst =
    (getZoneNames (.ok
      [{ name := "b", labels := [(LabelZoneFailureDomain, "z1"),
                                 (LabelZoneRegion, "r")] },
       { name := "a", labels := [(LabelZoneFailureDomain, "z2"),
                                 (LabelZoneRegion, "r")] }])).map Prod.fst :=
  getZoneNames_zones_permInvariant
    [{ name := "a", labels := [(LabelZoneFailureDomain, "z2"),
                               (LabelZoneRegion, "r")] },
     { name := "b", labels := [(LabelZoneFailureDomain, "z1"),
                               (LabelZoneRegion, "r")] }]
    [{ name := "b", labels := [(LabelZoneFailureDomain, "z1"),
                               (LabelZoneRegion, "r")] },
     { name := "a", labels := [(LabelZoneFailureDomain, "z2"),
                               (LabelZoneRegion, "r")] }]
    (by decide) (by decide) (by decide) (by decide)
